import Mathlib

/-!
Shallow embedding of `src/S4_ASI_Loader/dllmain.cpp` (Settlers4-ASI-Loader).

The loader's observable behaviour is modelled as traces of `Action`s plus the
two globals of the source, `loader_init_thread_handle` and
`initialise_vectors`, gathered into `LoaderState`.  OS calls
(`GetModuleHandle`, `GetModuleFileName`, `FindFirstFile`/`FindNextFile`,
`LoadLibrary`/`GetProcAddress`, `WaitForSingleObject`, `CreateThread`,
`GetModuleHandleExW`) are parameters of the environment records, with their
results supplied by the environment; the control flow around them is
translated from the source.
-/

namespace S4AsiLoader

/-- Wide-string strict lexicographic order by code-unit value, the comparison
`std::less<std::wstring>` that orders the `std::set<std::wstring> plugins`
in `AsiLoad` (dllmain.cpp:77).  Characters are compared by their numeric
value (`Char.toNat`); the model assumes BMP characters so that code-point
order and UTF-16 code-unit order agree. -/
def wlt : List Char → List Char → Bool
  | [], [] => false
  | [], _ :: _ => true
  | _ :: _, [] => false
  | a :: as, b :: bs =>
    if a.toNat < b.toNat then true
    else if b.toNat < a.toNat then false
    else wlt as bs

/-- Strict order on `String` induced by `wlt`, i.e. `operator<` of
`std::wstring`. -/
def slt (a b : String) : Bool := wlt a.data b.data

/-- ASCII lower-casing of one character, modelling the case folding that
`PathMatchSpecW` applies when comparing pattern and name (all literals in
the program are ASCII). -/
def lowerChar (c : Char) : Char :=
  if 65 ≤ c.toNat ∧ c.toNat ≤ 90 then Char.ofNat (c.toNat + 32) else c

/-- Models the Win32 `PathMatchSpecW` glob matcher on a single spec
(no `;`-separated lists are used by the source): `*` matches any run of
characters, `?` matches one character, everything else matches
case-insensitively.  First argument is the pattern, second the name;
a `*` consumes an arbitrary prefix, so the rest of the pattern must match
some suffix of the name. -/
def globMatch : List Char → List Char → Bool
  | [], s => s.isEmpty
  | p :: ps, s =>
    if p.toNat = 42 then s.tails.any fun t => globMatch ps t
    else
      match s with
      | [] => false
      | c :: ss =>
        if p.toNat = 63 then globMatch ps ss
        else ((lowerChar p).toNat = (lowerChar c).toNat : Bool) && globMatch ps ss

/-- Models the source's `PathMatchSpec(ffd.cFileName, PLUGINFILTER)` call
(dllmain.cpp:87): first argument the file name, second the spec. -/
def pathMatchSpec (name spec : String) : Bool := globMatch spec.data name.data

/-- `PLUGINFILTER` (dllmain.cpp:36). -/
def PLUGINFILTER : String := "*.asi"

/-- One record returned by `FindFirstFile`/`FindNextFile`: the file name and
whether `dwFileAttributes` has `FILE_ATTRIBUTE_DIRECTORY` set. -/
structure FileEntry where
  cFileName : String
  isDirectory : Bool
deriving DecidableEq, Repr

/-- Ordered insertion into the sorted duplicate-free list that models
`std::set<std::wstring>::emplace` (dllmain.cpp:89): a name equal to one
already present is not inserted again. -/
def setInsert (x : String) : List String → List String
  | [] => [x]
  | y :: ys =>
    if slt x y then x :: y :: ys
    else if slt y x then y :: setInsert x ys
    else y :: ys

/-- Body of the discovery loop of `AsiLoad` (dllmain.cpp:82-90): skip the
entry when its directory attribute is set, skip it when it fails the strict
`*.asi` check, otherwise put its name into the ordered set. -/
def discoverStep (acc : List String) (e : FileEntry) : List String :=
  if e.isDirectory then acc
  else if pathMatchSpec e.cFileName PLUGINFILTER then setInsert e.cFileName acc
  else acc

/-- The discovery loop of `AsiLoad` (dllmain.cpp:82-91): walk the entries the
enumeration returned, applying `discoverStep` to each.  The result is the
iteration order of `std::set`, i.e. ascending `slt` order. -/
def discover (entries : List FileEntry) : List String :=
  entries.foldl discoverStep []

/-- Lower-case hexadecimal digit. -/
def hexDigit (n : Nat) : Char :=
  if n < 10 then Char.ofNat (48 + n) else Char.ofNat (87 + n)

/-- Helper for `toHex`, fuelled division loop. -/
def toHexAux : Nat → Nat → List Char → List Char
  | 0, _, acc => acc
  | fuel + 1, n, acc =>
    if n = 0 then acc else toHexAux fuel (n / 16) (hexDigit (n % 16) :: acc)

/-- Lower-case hexadecimal rendering of a number, as `std::format` with a
hex presentation type produces for the wait status (dllmain.cpp:122). -/
def toHex (n : Nat) : String :=
  if n = 0 then "0" else String.mk (toHexAux n n [])

/-- Result the environment gives for one `LoadLibrary` call plus the
subsequent `GetProcAddress(hMod, "InitAsi")`: the load fails with an OS
error code, or succeeds with or without an `InitAsi` export. -/
inductive LoadResult where
  | fail (err : Nat)
  | ok (hasInit : Bool)
deriving DecidableEq, Repr

/-- Observable step of the loader.  Dialog-producing steps carry the data
interpolated into the message (see `dialogText`); `invoke f` is the call of
the `InitAsi` callback recorded for plugin file `f`. -/
inductive Action where
  | fatalDialog (msg : String) (err : Nat)
  | exitProcess
  | loadAttempt (file : String)
  | warnDialog (file : String) (err : Nat)
  | waitDialog (status : Nat) (err : Nat)
  | nullHandleDialog
  | patchFailDialog
  | installPatch
  | pinModule
  | startThread
  | freeLibrary
  | invoke (file : String)
deriving DecidableEq, Repr

/-- Title and body of the message box each dialog action shows, rebuilt from
the source format strings: `ERROR_BOX` (dllmain.cpp:39-45), the plugin-load
warning (dllmain.cpp:98-101), the wait-status message (dllmain.cpp:122-123),
the null-handle message (dllmain.cpp:128) and the patch-failure message
(dllmain.cpp:158).  Non-dialog actions yield `none`. -/
def dialogText : Action → Option (String × String)
  | .fatalDialog msg err =>
    some ("ASI LOADER ERROR", msg ++ "\n\nError Code " ++ toString err ++ ".")
  | .warnDialog file err =>
    some ("ASI LOADER ERROR",
      "Cannot load plugin\n" ++ file ++ "\n\nError Code " ++ toString err ++ ".")
  | .waitDialog status err =>
    some ("ASI Loader - Error",
      "Failed to wait for asi loader thread (status code: " ++ toHex status
        ++ "): " ++ toString err)
  | .nullHandleDialog =>
    some ("ASI Loader - Error", "asi loader thread failed to correctly initialize")
  | .patchFailDialog =>
    some ("ASI Loader - Error", "Failed to patch the main function")
  | _ => none

/-- Whether an action shows a message box. -/
def isDialog (a : Action) : Bool := (dialogText a).isSome

/-- The `InitAsi` invocations contained in a trace, in order. -/
def invokes (acts : List Action) : List String :=
  acts.filterMap fun a =>
    match a with
    | .invoke f => some f
    | _ => none

/-- The plugin-loading loop of `AsiLoad` (dllmain.cpp:94-107): for each name
in set order, call `LoadLibrary`; on failure show the warning box naming the
fully qualified file and `GetLastError` and keep going; on success, record
the `InitAsi` export in `initialise_vectors` when it exists.  Returns the
trace and the callbacks appended (identified by plugin file name). -/
def loadPlugins (load : String → LoadResult) : List String → List Action × List String
  | [] => ([], [])
  | p :: rest =>
    let step : List Action × List String :=
      match load p with
      | .fail e => ([.loadAttempt p, .warnDialog p e], [])
      | .ok false => ([.loadAttempt p], [])
      | .ok true => ([.loadAttempt p], [p])
    let r := loadPlugins load rest
    (step.1 ++ r.1, step.2 ++ r.2)

/-- Environment of one `AsiLoad` run: whether `GetModuleHandle(NULL)`
succeeds, the length `GetModuleFileName` returns (`0` is failure, since the
return is an unsigned count), the `GetLastError` value read by `ERROR_BOX`,
the entries `FindFirstFile`/`FindNextFile` yield (`none` when
`FindFirstFile` returns `INVALID_HANDLE_VALUE`), and the per-file
`LoadLibrary`/`GetProcAddress` outcome. -/
structure AsiEnv where
  mainModule : Bool
  fileNameLen : Nat
  lastError : Nat
  entries : Option (List FileEntry)
  load : String → LoadResult

/-- `AsiLoad` (dllmain.cpp:53-111): bail out through `ERROR_BOX` (dialog then
`ExitProcess`) when the host module or its file name cannot be obtained;
otherwise enumerate, filter and order the plugin names and run the loading
loop.  Returns the trace and the callbacks appended to
`initialise_vectors`. -/
def AsiLoad (env : AsiEnv) : List Action × List String :=
  if env.mainModule = false then
    ([.fatalDialog "Cannot get module handle of your exe." env.lastError, .exitProcess], [])
  else if env.fileNameLen = 0 then
    ([.fatalDialog "Cannot get file name of your exe." env.lastError, .exitProcess], [])
  else
    match env.entries with
    | none => ([], [])
    | some es => loadPlugins env.load (discover es)

/-- `WAIT_OBJECT_0`. -/
def WAIT_OBJECT_0 : Nat := 0

/-- Environment of one `WaitForPlugins` run: the status
`WaitForSingleObject` returns and the `GetLastError` value. -/
structure WaitEnv where
  waitStatus : Nat
  lastError : Nat

/-- The two globals of the source: `loader_init_thread_handle`
(dllmain.cpp:114) and `initialise_vectors` (dllmain.cpp:50), the latter as
the list of plugin files whose `InitAsi` was recorded, in push order. -/
structure LoaderState where
  handle : Option Nat
  cbs : List String
deriving DecidableEq, Repr

/-- `WaitForPlugins` (dllmain.cpp:117-137), the trigger the patch installs:
with a non-null handle, wait on the worker, show the wait-status box when
the status is not `WAIT_OBJECT_0`, and null the handle; with a null handle,
show the failed-to-initialize box.  Either way, then call every recorded
`InitAsi` in order and return `1`. -/
def WaitForPlugins (env : WaitEnv) (s : LoaderState) :
    List Action × LoaderState × Nat :=
  match s.handle with
  | some _ =>
    ((if env.waitStatus ≠ WAIT_OBJECT_0 then
        [Action.waitDialog env.waitStatus env.lastError]
      else []) ++ s.cbs.map Action.invoke,
     ⟨none, s.cbs⟩, 1)
  | none =>
    (Action.nullHandleDialog :: s.cbs.map Action.invoke, ⟨none, s.cbs⟩, 1)

/-- Environment of the `DLL_PROCESS_ATTACH` branch of `DllMain`: whether
`patch.patch()` succeeds, whether the `GetModuleHandleExW` self-lookup
by address succeeds, whether `CreateThread` returns a handle, and the
environment a run of `AsiLoad` would see. -/
structure DllEnv where
  patchOk : Bool
  pinOk : Bool
  createThreadOk : Bool
  asi : AsiEnv

/-- The `DLL_PROCESS_ATTACH` branch of `DllMain` (dllmain.cpp:139-173):
construct and install the call patch at host base + 0x5C489 (dialog on
failure, then continue), pin the module via `GetModuleHandleExW` with
`GET_MODULE_HANDLE_EX_FLAG_FROM_ADDRESS`, and create the worker thread.
When the thread cannot be created, run `AsiLoad` synchronously and release
the pin; when the pin itself failed, run `AsiLoad` synchronously.  Starts
from the initial globals (null handle, empty vector) and returns the trace
and the state at return from `DllMain`. -/
def DllMainAttach (env : DllEnv) : List Action × LoaderState :=
  let acts0 :=
    Action.installPatch ::
      (if env.patchOk then [] else [Action.patchFailDialog]) ++ [Action.pinModule]
  if env.pinOk then
    if env.createThreadOk then
      (acts0 ++ [Action.startThread], ⟨some 0, []⟩)
    else
      let a := AsiLoad env.asi
      (acts0 ++ [Action.startThread] ++ a.1 ++ [Action.freeLibrary], ⟨none, a.2⟩)
  else
    let a := AsiLoad env.asi
    (acts0 ++ a.1, ⟨none, a.2⟩)

/-- Spec-side definition, following the spec's words for comparison with the
code: case-insensitive lexicographic strict order on filenames (ASCII case
folding). -/
def specCiLt (a b : String) : Bool :=
  wlt (a.data.map lowerChar) (b.data.map lowerChar)

/-- Spec-side: ordered insertion by `specCiLt`, for `specCiSort`. -/
def specCiInsert (x : String) : List String → List String
  | [] => [x]
  | y :: ys => if specCiLt x y then x :: y :: ys else y :: specCiInsert x ys

/-- Spec-side: insertion sort by the case-insensitive order, realizing the
spec's "case-insensitive ascending lexicographic order of those
filenames". -/
def specCiSort : List String → List String
  | [] => []
  | x :: xs => specCiInsert x (specCiSort xs)

/-- Load environment in which every plugin maps and exports `InitAsi`. -/
def allOkLoad : String → LoadResult := fun _ => .ok true

/-- Concrete `AsiLoad` environment: a plugins directory holding `a.asi` and
`B.asi`, both loading fine with an `InitAsi` export. -/
def envAB : AsiEnv where
  mainModule := true
  fileNameLen := 10
  lastError := 0
  entries := some [⟨"a.asi", false⟩, ⟨"B.asi", false⟩]
  load := allOkLoad

/-- Concrete wait environment whose wait returns `WAIT_OBJECT_0`. -/
def wenvOk : WaitEnv where
  waitStatus := WAIT_OBJECT_0
  lastError := 0

/-- Concrete wait environment whose wait returns `WAIT_ABANDONED` (0x80). -/
def wenvBad : WaitEnv where
  waitStatus := 128
  lastError := 6

/-- Concrete `DllMain` environment in which every OS call succeeds. -/
def dllEnvOk : DllEnv where
  patchOk := true
  pinOk := true
  createThreadOk := true
  asi := envAB

/-- Concrete `DllMain` environment in which `CreateThread` fails. -/
def dllEnvNoThread : DllEnv where
  patchOk := true
  pinOk := true
  createThreadOk := false
  asi := envAB

/-- Concrete load environment in which `broken.asi` fails to map with OS
error 126 and everything else loads with an `InitAsi` export. -/
def loadBadGood : String → LoadResult := fun s =>
  if s = "broken.asi" then .fail 126 else .ok true

/-- Concrete `AsiLoad` environment in which `GetModuleHandle(NULL)` fails. -/
def envNoMain : AsiEnv where
  mainModule := false
  fileNameLen := 0
  lastError := 5
  entries := none
  load := allOkLoad

/-- Concrete `AsiLoad` environment with an absent plugins directory
(`FindFirstFile` returns `INVALID_HANDLE_VALUE`). -/
def envEmpty : AsiEnv where
  mainModule := true
  fileNameLen := 10
  lastError := 0
  entries := none
  load := allOkLoad

/-! Order lemmas for `wlt`/`slt`. -/

theorem char_eq_of_toNat_eq {a b : Char} (h : a.toNat = b.toNat) : a = b := by
  have ha := Char.ofNat_toNat a
  have hb := Char.ofNat_toNat b
  rw [← ha, ← hb, h]

theorem wlt_trans : ∀ {l1 l2 l3 : List Char},
    wlt l1 l2 = true → wlt l2 l3 = true → wlt l1 l3 = true := by
  intro l1
  induction l1 with
  | nil =>
    intro l2 l3 h1 h2
    cases l2 with
    | nil => simp [wlt] at h1
    | cons b bs =>
      cases l3 with
      | nil => simp [wlt] at h2
      | cons c cs => simp [wlt]
  | cons a as ih =>
    intro l2 l3 h1 h2
    cases l2 with
    | nil => simp [wlt] at h1
    | cons b bs =>
      cases l3 with
      | nil => simp [wlt] at h2
      | cons c cs =>
        simp only [wlt] at h1 h2 ⊢
        split_ifs at h1 h2 ⊢ <;>
          first
          | rfl
          | omega
          | exact ih h1 h2

theorem wlt_eq_of_not : ∀ {l1 l2 : List Char},
    wlt l1 l2 = false → wlt l2 l1 = false → l1 = l2 := by
  intro l1
  induction l1 with
  | nil =>
    intro l2 h1 h2
    cases l2 with
    | nil => rfl
    | cons b bs => simp [wlt] at h1
  | cons a as ih =>
    intro l2 h1 h2
    cases l2 with
    | nil => simp [wlt] at h2
    | cons b bs =>
      simp only [wlt] at h1 h2
      split_ifs at h1 h2
      exact congrArg₂ List.cons (char_eq_of_toNat_eq (by omega)) (ih h1 h2)

theorem slt_trans {a b c : String} (h1 : slt a b = true) (h2 : slt b c = true) :
    slt a c = true := wlt_trans h1 h2

theorem slt_eq_of_not {a b : String} (h1 : slt a b = false) (h2 : slt b a = false) :
    a = b := by
  cases a; cases b
  exact congrArg String.mk (wlt_eq_of_not h1 h2)

/-! Lemmas about `setInsert` and `discover`. -/

theorem mem_setInsert {x a : String} : ∀ {l : List String},
    a ∈ setInsert x l ↔ a = x ∨ a ∈ l := by
  intro l
  induction l with
  | nil => simp [setInsert]
  | cons y ys ih =>
    simp only [setInsert]
    split_ifs with hxy hyx
    · simp [or_assoc]
    · simp only [List.mem_cons, ih]
      tauto
    · have hx : x = y := slt_eq_of_not (by simpa using hxy) (by simpa using hyx)
      subst hx
      simp only [List.mem_cons]
      tauto

theorem pairwise_setInsert {x : String} : ∀ {l : List String},
    l.Pairwise (fun a b => slt a b = true) →
    (setInsert x l).Pairwise (fun a b => slt a b = true) := by
  intro l
  induction l with
  | nil => intro _; simp [setInsert]
  | cons y ys ih =>
    intro h
    rw [List.pairwise_cons] at h
    obtain ⟨hy, hys⟩ := h
    simp only [setInsert]
    split_ifs with hxy hyx
    · refine List.Pairwise.cons ?_ (List.Pairwise.cons hy hys)
      intro b hb
      rcases List.mem_cons.mp hb with hb | hb
      · exact hb ▸ hxy
      · exact slt_trans hxy (hy b hb)
    · refine List.Pairwise.cons ?_ (ih hys)
      intro b hb
      rcases mem_setInsert.mp hb with hb | hb
      · exact hb ▸ hyx
      · exact hy b hb
    · exact List.Pairwise.cons hy hys

theorem nodup_of_pairwise_slt {l : List String}
    (h : l.Pairwise (fun a b => slt a b = true)) : l.Nodup := by
  refine h.imp ?_
  intro a b hab
  intro he
  subst he
  have : wlt a.data a.data = false := by
    clear hab
    induction a.data with
    | nil => simp [wlt]
    | cons c cs ih => simp [wlt, ih]
  rw [slt, this] at hab
  cases hab

theorem mem_foldl_discoverStep {n : String} : ∀ {es : List FileEntry} {acc : List String},
    n ∈ es.foldl discoverStep acc ↔
      n ∈ acc ∨ ∃ e, e ∈ es ∧ e.isDirectory = false ∧
        pathMatchSpec e.cFileName PLUGINFILTER = true ∧ e.cFileName = n := by
  intro es
  induction es with
  | nil => simp
  | cons e es ih =>
    intro acc
    rw [List.foldl_cons, ih]
    have hstep : n ∈ discoverStep acc e ↔
        n ∈ acc ∨ (e.isDirectory = false ∧
          pathMatchSpec e.cFileName PLUGINFILTER = true ∧ e.cFileName = n) := by
      simp only [discoverStep]
      split_ifs with hd hm
      · simp [hd]
      · rw [mem_setInsert]
        constructor
        · rintro (h | h)
          · exact Or.inr ⟨by simpa using hd, hm, h.symm⟩
          · exact Or.inl h
        · rintro (h | ⟨_, _, h⟩)
          · exact Or.inr h
          · exact Or.inl h.symm
      · constructor
        · exact Or.inl
        · rintro (h | ⟨_, hm2, he⟩)
          · exact h
          · exact absurd hm2 (by simpa using hm)
    rw [hstep]
    constructor
    · rintro ((h | h) | ⟨e2, h2, h3⟩)
      · exact Or.inl h
      · exact Or.inr ⟨e, List.mem_cons_self e es, h⟩
      · exact Or.inr ⟨e2, List.mem_cons_of_mem e h2, h3⟩
    · rintro (h | ⟨e2, h2, h3⟩)
      · exact Or.inl (Or.inl h)
      · rcases List.mem_cons.mp h2 with he | he
        · exact Or.inl (Or.inr (he ▸ h3))
        · exact Or.inr ⟨e2, he, h3⟩

theorem mem_discover {es : List FileEntry} {n : String} :
    n ∈ discover es ↔
      ∃ e, e ∈ es ∧ e.isDirectory = false ∧
        pathMatchSpec e.cFileName PLUGINFILTER = true ∧ e.cFileName = n := by
  rw [discover, mem_foldl_discoverStep]
  simp

theorem pairwise_foldl_discoverStep : ∀ {es : List FileEntry} {acc : List String},
    acc.Pairwise (fun a b => slt a b = true) →
    (es.foldl discoverStep acc).Pairwise (fun a b => slt a b = true) := by
  intro es
  induction es with
  | nil => intro acc h; simpa using h
  | cons e es ih =>
    intro acc h
    rw [List.foldl_cons]
    refine ih ?_
    simp only [discoverStep]
    split_ifs with hd hm
    · exact h
    · exact pairwise_setInsert h
    · exact h

theorem pairwise_discover {es : List FileEntry} :
    (discover es).Pairwise (fun a b => slt a b = true) :=
  pairwise_foldl_discoverStep List.Pairwise.nil

/-! Lemmas about `invokes` and `loadPlugins`. -/

theorem invokes_append (l1 l2 : List Action) :
    invokes (l1 ++ l2) = invokes l1 ++ invokes l2 := by
  simp [invokes]

theorem invokes_map_invoke (l : List String) :
    invokes (l.map Action.invoke) = l := by
  induction l with
  | nil => rfl
  | cons x xs ih => simpa [invokes, List.filterMap_cons] using ih

theorem loadPlugins_cbs (load : String → LoadResult) : ∀ ps : List String,
    (loadPlugins load ps).2 = ps.filter fun p => decide (load p = LoadResult.ok true) := by
  intro ps
  induction ps with
  | nil => rfl
  | cons p rest ih =>
    cases h : load p with
    | fail e => simp [loadPlugins, h, ih, List.filter_cons]
    | ok b => cases b <;> simp [loadPlugins, h, ih, List.filter_cons]

theorem loadAttempt_mem_loadPlugins (load : String → LoadResult) (n : String) :
    ∀ ps : List String,
      Action.loadAttempt n ∈ (loadPlugins load ps).1 ↔ n ∈ ps := by
  intro ps
  induction ps with
  | nil => simp [loadPlugins]
  | cons p rest ih =>
    cases h : load p with
    | fail e => simp [loadPlugins, h, ih]
    | ok b => cases b <;> simp [loadPlugins, h, ih]

theorem invokes_loadPlugins (load : String → LoadResult) :
    ∀ ps : List String, invokes (loadPlugins load ps).1 = [] := by
  intro ps
  induction ps with
  | nil => rfl
  | cons p rest ih =>
    cases h : load p with
    | fail e =>
      simp only [loadPlugins, h]
      rw [invokes_append, ih]
      rfl
    | ok b =>
      cases b <;>
      · simp only [loadPlugins, h]
        rw [invokes_append, ih]
        rfl

theorem warnDialog_mem_loadPlugins (load : String → LoadResult) (p : String) (e : Nat) :
    ∀ ps : List String,
      Action.warnDialog p e ∈ (loadPlugins load ps).1 ↔
        p ∈ ps ∧ load p = LoadResult.fail e := by
  intro ps
  induction ps with
  | nil => simp [loadPlugins]
  | cons q rest ih =>
    cases h : load q with
    | fail e2 =>
      simp only [loadPlugins, h, List.mem_append, List.mem_cons, List.mem_singleton,
        List.not_mem_nil, ih]
      constructor
      · rintro ((hc | hc | hc) | ⟨hmem, hl⟩)
        · cases hc
        · rcases Action.warnDialog.inj hc.symm with ⟨h1, h2⟩
          exact ⟨Or.inl h1.symm, by rw [← h1, h, h2]⟩
        · cases hc
        · exact ⟨Or.inr hmem, hl⟩
      · rintro ⟨hmem | hmem, hl⟩
        · subst hmem
          rw [h] at hl
          cases hl
          exact Or.inl (Or.inr (Or.inl rfl))
        · exact Or.inr ⟨hmem, hl⟩
    | ok b =>
      cases b <;>
        · simp only [loadPlugins, h, List.mem_append, List.mem_cons,
            List.not_mem_nil, ih]
          constructor
          · rintro ((hc | hc) | ⟨hmem, hl⟩)
            · cases hc
            · simp at hc
            · exact ⟨Or.inr hmem, hl⟩
          · rintro ⟨hmem | hmem, hl⟩
            · subst hmem
              rw [h] at hl
              cases hl
            · exact Or.inr ⟨hmem, hl⟩

theorem count_warnDialog_notMem (load : String → LoadResult) (p : String) (e : Nat)
    (ps : List String) (hp : p ∉ ps) :
    (loadPlugins load ps).1.count (Action.warnDialog p e) = 0 := by
  rw [List.count_eq_zero]
  intro hmem
  exact hp ((warnDialog_mem_loadPlugins load p e ps).mp hmem).1

theorem count_warnDialog_loadPlugins (load : String → LoadResult) (p : String) (e : Nat) :
    ∀ ps : List String, ps.Nodup → p ∈ ps → load p = LoadResult.fail e →
      (loadPlugins load ps).1.count (Action.warnDialog p e) = 1 := by
  intro ps
  induction ps with
  | nil => intro _ hmem _; cases hmem
  | cons q rest ih =>
    intro hnd hmem hf
    rw [List.nodup_cons] at hnd
    rcases List.mem_cons.mp hmem with he | he
    · subst he
      have hz := count_warnDialog_notMem load p e rest hnd.1
      simp [loadPlugins, hf, List.count_cons, List.count_append, hz]
    · have hq : q ≠ p := fun hqp => hnd.1 (hqp ▸ he)
      have hr := ih hnd.2 he hf
      cases h : load q with
      | fail e2 =>
        simp [loadPlugins, h, List.count_cons, List.count_append, hr, hq]
      | ok b =>
        cases b <;>
          simp [loadPlugins, h, List.count_cons, List.count_append, hr, hq]

/-! Lemmas about `WaitForPlugins`, `AsiLoad` and `DllMainAttach`. -/

theorem WaitForPlugins_state (wenv : WaitEnv) (s : LoaderState) :
    (WaitForPlugins wenv s).2.1 = ⟨none, s.cbs⟩ := by
  obtain ⟨sh, scbs⟩ := s
  cases sh <;> simp [WaitForPlugins]

theorem invokes_WaitForPlugins (wenv : WaitEnv) (s : LoaderState) :
    invokes (WaitForPlugins wenv s).1 = s.cbs := by
  obtain ⟨sh, scbs⟩ := s
  cases sh with
  | none =>
    simp only [WaitForPlugins]
    simpa [invokes, List.filterMap_cons] using invokes_map_invoke scbs
  | some h =>
    simp only [WaitForPlugins]
    by_cases hs : wenv.waitStatus ≠ WAIT_OBJECT_0
    · rw [if_pos hs, List.singleton_append]
      simpa [invokes, List.filterMap_cons] using invokes_map_invoke scbs
    · rw [if_neg hs, List.nil_append]
      exact invokes_map_invoke scbs

theorem invokes_AsiLoad (env : AsiEnv) : invokes (AsiLoad env).1 = [] := by
  by_cases h1 : env.mainModule = false
  · simp [AsiLoad, h1, invokes]
  · by_cases h2 : env.fileNameLen = 0
    · simp [AsiLoad, h1, h2, invokes]
    · cases h3 : env.entries with
      | none => simp [AsiLoad, h1, h2, h3, invokes]
      | some es =>
        simp only [AsiLoad, h1, h2, h3, if_neg, if_false]
        exact invokes_loadPlugins env.load (discover es)

theorem invokes_DllMainAttach (env : DllEnv) :
    invokes (DllMainAttach env).1 = [] := by
  simp only [DllMainAttach]
  by_cases hp : env.pinOk <;> by_cases hc : env.createThreadOk <;>
    cases hq : env.patchOk <;>
      simp [hp, hc, hq, invokes_append, invokes_AsiLoad, invokes] <;>
        exact fun a ha => List.filterMap_eq_nil_iff.mp (invokes_AsiLoad env.asi) a ha

theorem AsiLoad_cbs_discover (env : AsiEnv) (es : List FileEntry)
    (h1 : env.mainModule = true) (h2 : env.fileNameLen ≠ 0)
    (h3 : env.entries = some es)
    (h4 : ∀ p ∈ discover es, env.load p = LoadResult.ok true) :
    (AsiLoad env).2 = discover es := by
  have h5 : (AsiLoad env).2 = (loadPlugins env.load (discover es)).2 := by
    simp [AsiLoad, h1, h2, h3]
  rw [h5, loadPlugins_cbs]
  refine List.filter_eq_self.mpr ?_
  intro a ha
  rw [h4 a ha]
  rfl

/-! Claim theorems. -/

/-- Claim C3: discovery accepts a directory entry exactly when it is not a
directory and its name strictly matches `*.asi`; in particular
`foo.asi.txt` fails the pattern, is never in the discovered set, and is
never load-attempted by `AsiLoad`, even when the enumeration returns it. -/
theorem claim_c3 :
    (∀ (es : List FileEntry) (n : String),
        n ∈ discover es ↔
          ∃ e, e ∈ es ∧ e.isDirectory = false ∧
            pathMatchSpec e.cFileName PLUGINFILTER = true ∧ e.cFileName = n)
    ∧ pathMatchSpec "foo.asi.txt" PLUGINFILTER = false
    ∧ (∀ es : List FileEntry, "foo.asi.txt" ∉ discover es)
    ∧ (∀ env : AsiEnv, Action.loadAttempt "foo.asi.txt" ∉ (AsiLoad env).1) := by
  have hfoo : pathMatchSpec "foo.asi.txt" PLUGINFILTER = false := by decide
  have hnd : ∀ es : List FileEntry, "foo.asi.txt" ∉ discover es := by
    intro es hmem
    rcases mem_discover.mp hmem with ⟨e, _, _, hm2, he⟩
    rw [he, hfoo] at hm2
    cases hm2
  refine ⟨fun es n => mem_discover, hfoo, hnd, ?_⟩
  intro env hmem
  by_cases h1 : env.mainModule = false
  · simp [AsiLoad, h1] at hmem
  · by_cases h2 : env.fileNameLen = 0
    · simp [AsiLoad, h1, h2] at hmem
    · cases h3 : env.entries with
      | none => simp [AsiLoad, h1, h2, h3] at hmem
      | some es =>
        have hmem2 : Action.loadAttempt "foo.asi.txt" ∈
            (loadPlugins env.load (discover es)).1 := by
          have heq : (AsiLoad env).1 = (loadPlugins env.load (discover es)).1 := by
            simp [AsiLoad, h1, h2, h3]
          rw [heq] at hmem
          exact hmem
        exact hnd es
          ((loadAttempt_mem_loadPlugins env.load _ (discover es)).mp hmem2)

/-- Witness for C3: with an enumeration returning only `foo.asi.txt`, the
discovered set does not contain it. -/
theorem claim_c3_witness :
    "foo.asi.txt" ∉ discover [⟨"foo.asi.txt", false⟩] :=
  claim_c3.2.2.1 [⟨"foo.asi.txt", false⟩]

/-- Claim C7: when `GetModuleHandle(NULL)` fails, or `GetModuleFileName`
returns no length, `AsiLoad` shows the `ERROR_BOX` dialog and exits the
process, attempting no plugin load and recording no callback. -/
theorem claim_c7 (env : AsiEnv) :
    (env.mainModule = false →
      AsiLoad env =
        ([Action.fatalDialog "Cannot get module handle of your exe." env.lastError,
          Action.exitProcess], [])
      ∧ ∀ n, Action.loadAttempt n ∉ (AsiLoad env).1)
    ∧ (env.mainModule = true → env.fileNameLen = 0 →
      AsiLoad env =
        ([Action.fatalDialog "Cannot get file name of your exe." env.lastError,
          Action.exitProcess], [])
      ∧ ∀ n, Action.loadAttempt n ∉ (AsiLoad env).1) := by
  constructor
  · intro h
    refine ⟨by simp [AsiLoad, h], ?_⟩
    intro n hmem
    simp [AsiLoad, h] at hmem
  · intro h1 h2
    refine ⟨by simp [AsiLoad, h1, h2], ?_⟩
    intro n hmem
    simp [AsiLoad, h1, h2] at hmem

/-- Witness for C7: the fatal-bootstrap trace at a concrete environment. -/
theorem claim_c7_witness :
    AsiLoad envNoMain =
      ([Action.fatalDialog "Cannot get module handle of your exe." 5,
        Action.exitProcess], []) :=
  ((claim_c7 envNoMain).1 rfl).1

/-- Claim C9: with an absent plugins directory, or one in which nothing
passes the filter, `AsiLoad` produces an empty trace (no dialog) and an
empty callback list, and the trigger still fires: with the worker joined
cleanly it shows no dialog, invokes zero callbacks and returns 1. -/
theorem claim_c9 (env : AsiEnv) (wenv : WaitEnv) (h : Nat)
    (h1 : env.mainModule = true) (h2 : env.fileNameLen ≠ 0) :
    (env.entries = none → AsiLoad env = ([], []))
    ∧ (∀ es, env.entries = some es → discover es = [] → AsiLoad env = ([], []))
    ∧ (wenv.waitStatus = WAIT_OBJECT_0 →
        WaitForPlugins wenv ⟨some h, []⟩ = ([], ⟨none, []⟩, 1)) := by
  refine ⟨?_, ?_, ?_⟩
  · intro h3
    simp [AsiLoad, h1, h2, h3]
  · intro es h3 h4
    simp [AsiLoad, h1, h2, h3, h4, loadPlugins]
  · intro hs
    simp [WaitForPlugins, hs]

/-- Witness for C9: concrete absent directory and clean join. -/
theorem claim_c9_witness :
    (envEmpty.entries = none → AsiLoad envEmpty = ([], []))
    ∧ (∀ es, envEmpty.entries = some es → discover es = [] →
        AsiLoad envEmpty = ([], []))
    ∧ (wenvOk.waitStatus = WAIT_OBJECT_0 →
        WaitForPlugins wenvOk ⟨some 0, []⟩ = ([], ⟨none, []⟩, 1)) :=
  claim_c9 envEmpty wenvOk 0 rfl (by decide)

/-- Claim C4: when the trigger's wait on the worker returns any status other
than `WAIT_OBJECT_0`, the wait-status dialog is surfaced, and the trigger
still proceeds to invoke every callback in the list, in order; the handle
is cleared and 1 is returned. -/
theorem claim_c4 (wenv : WaitEnv) (s : LoaderState) (h : Nat)
    (hh : s.handle = some h) (hs : wenv.waitStatus ≠ WAIT_OBJECT_0) :
    (WaitForPlugins wenv s).1 =
      Action.waitDialog wenv.waitStatus wenv.lastError :: s.cbs.map Action.invoke
    ∧ isDialog (Action.waitDialog wenv.waitStatus wenv.lastError) = true
    ∧ invokes (WaitForPlugins wenv s).1 = s.cbs
    ∧ (WaitForPlugins wenv s).2 = (⟨none, s.cbs⟩, 1) := by
  obtain ⟨sh, scbs⟩ := s
  have hh2 : sh = some h := hh
  subst hh2
  refine ⟨by simp [WaitForPlugins, hs], rfl,
    invokes_WaitForPlugins wenv ⟨some h, scbs⟩, by simp [WaitForPlugins]⟩

/-- Witness for C4 at an abandoned-wait status and two recorded callbacks. -/
theorem claim_c4_witness :
    (WaitForPlugins wenvBad ⟨some 3, ["a.asi", "b.asi"]⟩).1 =
      Action.waitDialog wenvBad.waitStatus wenvBad.lastError ::
        (["a.asi", "b.asi"] : List String).map Action.invoke
    ∧ isDialog (Action.waitDialog wenvBad.waitStatus wenvBad.lastError) = true
    ∧ invokes (WaitForPlugins wenvBad ⟨some 3, ["a.asi", "b.asi"]⟩).1 =
        ["a.asi", "b.asi"]
    ∧ (WaitForPlugins wenvBad ⟨some 3, ["a.asi", "b.asi"]⟩).2 =
        (⟨none, ["a.asi", "b.asi"]⟩, 1) :=
  claim_c4 wenvBad ⟨some 3, ["a.asi", "b.asi"]⟩ 3 rfl (by decide)

/-- Claim C10: with a null worker handle the trigger shows the
failed-to-initialize dialog and then still invokes the callbacks; after any
firing the handle is null, so a second firing takes the null-handle path
and shows that dialog again. -/
theorem claim_c10 (wenv wenv2 : WaitEnv) (s : LoaderState) (hh : s.handle = none) :
    (WaitForPlugins wenv s).1 =
      Action.nullHandleDialog :: s.cbs.map Action.invoke
    ∧ dialogText Action.nullHandleDialog =
        some ("ASI Loader - Error", "asi loader thread failed to correctly initialize")
    ∧ (∀ s2 : LoaderState, (WaitForPlugins wenv s2).2.1.handle = none)
    ∧ (∀ s2 : LoaderState,
        (WaitForPlugins wenv2 (WaitForPlugins wenv s2).2.1).1 =
          Action.nullHandleDialog :: s2.cbs.map Action.invoke) := by
  obtain ⟨sh, scbs⟩ := s
  have hh2 : sh = none := hh
  subst hh2
  refine ⟨by simp [WaitForPlugins], rfl, ?_, ?_⟩
  · intro s2
    rw [WaitForPlugins_state]
  · intro s2
    rw [WaitForPlugins_state]
    simp [WaitForPlugins]

/-- Witness for C10 at a concrete null-handle state. -/
theorem claim_c10_witness :
    (WaitForPlugins wenvOk ⟨none, ["a.asi"]⟩).1 =
      Action.nullHandleDialog :: (["a.asi"] : List String).map Action.invoke
    ∧ dialogText Action.nullHandleDialog =
        some ("ASI Loader - Error", "asi loader thread failed to correctly initialize")
    ∧ (∀ s2 : LoaderState, (WaitForPlugins wenvOk s2).2.1.handle = none)
    ∧ (∀ s2 : LoaderState,
        (WaitForPlugins wenvBad (WaitForPlugins wenvOk s2).2.1).1 =
          Action.nullHandleDialog :: s2.cbs.map Action.invoke) :=
  claim_c10 wenvOk wenvBad ⟨none, ["a.asi"]⟩ rfl

/-- Claim C8: a single trigger execution invokes exactly the recorded
callbacks, each once and in list order, and neither `AsiLoad` nor the entry
shim ever emits an `invoke`, so no other code path calls the recorded
callbacks. -/
theorem claim_c8 (wenv : WaitEnv) (s : LoaderState) (env : AsiEnv) (denv : DllEnv) :
    invokes (WaitForPlugins wenv s).1 = s.cbs
    ∧ invokes (AsiLoad env).1 = []
    ∧ invokes (DllMainAttach denv).1 = [] :=
  ⟨invokes_WaitForPlugins wenv s, invokes_AsiLoad env, invokes_DllMainAttach denv⟩

/-- Claim C5: a plugin file that fails to map yields exactly one warning
dialog, whose text names that file and the OS error; no callback is
appended for it; and every plugin in the list is still load-attempted, with
every successfully loading plugin exporting `InitAsi` still recorded. -/
theorem claim_c5 (load : String → LoadResult) (ps : List String) (p : String) (e : Nat)
    (hnd : ps.Nodup) (hmem : p ∈ ps) (hf : load p = LoadResult.fail e) :
    (loadPlugins load ps).1.count (Action.warnDialog p e) = 1
    ∧ dialogText (Action.warnDialog p e) =
        some ("ASI LOADER ERROR",
          "Cannot load plugin\n" ++ p ++ "\n\nError Code " ++ toString e ++ ".")
    ∧ p ∉ (loadPlugins load ps).2
    ∧ (∀ q, q ∈ ps → Action.loadAttempt q ∈ (loadPlugins load ps).1)
    ∧ (∀ q, q ∈ ps → load q = LoadResult.ok true → q ∈ (loadPlugins load ps).2) := by
  refine ⟨count_warnDialog_loadPlugins load p e ps hnd hmem hf, rfl, ?_, ?_, ?_⟩
  · rw [loadPlugins_cbs]
    intro hmem2
    have h2 := (List.mem_filter.mp hmem2).2
    rw [hf] at h2
    exact absurd (of_decide_eq_true h2) (by simp)
  · intro q hq
    exact (loadAttempt_mem_loadPlugins load q ps).mpr hq
  · intro q hq hl
    rw [loadPlugins_cbs]
    exact List.mem_filter.mpr ⟨hq, by rw [hl]; rfl⟩

/-- Witness for C5: `broken.asi` fails with error 126 among two good
plugins. -/
theorem claim_c5_witness :
    (loadPlugins loadBadGood ["a.asi", "broken.asi", "z.asi"]).1.count
        (Action.warnDialog "broken.asi" 126) = 1
    ∧ dialogText (Action.warnDialog "broken.asi" 126) =
        some ("ASI LOADER ERROR",
          "Cannot load plugin\n" ++ "broken.asi" ++ "\n\nError Code "
            ++ toString 126 ++ ".")
    ∧ "broken.asi" ∉ (loadPlugins loadBadGood ["a.asi", "broken.asi", "z.asi"]).2
    ∧ (∀ q, q ∈ ["a.asi", "broken.asi", "z.asi"] →
        Action.loadAttempt q ∈ (loadPlugins loadBadGood ["a.asi", "broken.asi", "z.asi"]).1)
    ∧ (∀ q, q ∈ ["a.asi", "broken.asi", "z.asi"] → loadBadGood q = LoadResult.ok true →
        q ∈ (loadPlugins loadBadGood ["a.asi", "broken.asi", "z.asi"]).2) :=
  claim_c5 loadBadGood ["a.asi", "broken.asi", "z.asi"] "broken.asi" 126
    (by decide) (by decide) (by decide)

/-- Counterexample to C2 as stated: with every OS call succeeding, the entry
shim's trace is patch installation first, then the module pin, then the
thread start — its first step is not the pin, so the claimed order
(pin, then patch, then thread) is false. -/
theorem claim_c2_counterexample :
    (DllMainAttach dllEnvOk).1 =
      [Action.installPatch, Action.pinModule, Action.startThread]
    ∧ (DllMainAttach dllEnvOk).1.head? ≠ some Action.pinModule := by
  exact ⟨rfl, by decide⟩

/-- Claim C2 amended: on process attach the entry shim first installs the
code patch at the fixed offset from the host base (showing the
patch-failure dialog if installation fails), then pins the loader module
via the self-lookup by address, then starts the worker thread. -/
theorem claim_c2_amended (env : DllEnv)
    (h1 : env.pinOk = true) (h2 : env.createThreadOk = true) :
    (DllMainAttach env).1 =
      Action.installPatch ::
        ((if env.patchOk then [] else [Action.patchFailDialog]) ++
          [Action.pinModule, Action.startThread])
    ∧ (DllMainAttach env).2 = ⟨some 0, []⟩ := by
  cases hq : env.patchOk <;> simp [DllMainAttach, h1, h2, hq]

/-- Witness for the amended C2 at the all-success environment. -/
theorem claim_c2_amended_witness :
    (DllMainAttach dllEnvOk).1 =
      Action.installPatch ::
        ((if dllEnvOk.patchOk then [] else [Action.patchFailDialog]) ++
          [Action.pinModule, Action.startThread])
    ∧ (DllMainAttach dllEnvOk).2 = ⟨some 0, []⟩ :=
  claim_c2_amended dllEnvOk rfl rfl

/-- Claim C6: when `CreateThread` fails, the shim runs `AsiLoad`
synchronously and releases the pin before returning; the only dialogs in
the whole trace are the patch-failure dialog and `AsiLoad`'s own (none for
the spawn failure itself); the callbacks are already recorded in the state
at return — in particular every discovered plugin whose load succeeds with
`InitAsi` — and the trigger then invokes exactly the recorded list. -/
theorem claim_c6 (env : DllEnv) (wenv : WaitEnv)
    (h1 : env.pinOk = true) (h2 : env.createThreadOk = false) :
    (DllMainAttach env).1 =
      Action.installPatch ::
        ((if env.patchOk then [] else [Action.patchFailDialog]) ++
          [Action.pinModule, Action.startThread] ++ (AsiLoad env.asi).1 ++
            [Action.freeLibrary])
    ∧ (DllMainAttach env).2 = ⟨none, (AsiLoad env.asi).2⟩
    ∧ (DllMainAttach env).1.filter isDialog =
        (if env.patchOk then [] else [Action.patchFailDialog]) ++
          (AsiLoad env.asi).1.filter isDialog
    ∧ (∀ es p, env.asi.entries = some es → env.asi.mainModule = true →
        env.asi.fileNameLen ≠ 0 → p ∈ discover es →
        env.asi.load p = LoadResult.ok true → p ∈ (DllMainAttach env).2.cbs)
    ∧ invokes (WaitForPlugins wenv (DllMainAttach env).2).1 =
        (DllMainAttach env).2.cbs := by
  have htr : (DllMainAttach env).1 =
      Action.installPatch ::
        ((if env.patchOk then [] else [Action.patchFailDialog]) ++
          [Action.pinModule, Action.startThread] ++ (AsiLoad env.asi).1 ++
            [Action.freeLibrary]) := by
    cases hq : env.patchOk <;> simp [DllMainAttach, h1, h2, hq]
  have hst : (DllMainAttach env).2 = ⟨none, (AsiLoad env.asi).2⟩ := by
    cases hq : env.patchOk <;> simp [DllMainAttach, h1, h2, hq]
  refine ⟨htr, hst, ?_, ?_, ?_⟩
  · rw [htr]
    cases hq : env.patchOk <;>
      simp [hq, List.filter_append, List.filter_cons, isDialog, dialogText]
  · intro es p h3 h4 h5 h6 h7
    rw [hst]
    show p ∈ (AsiLoad env.asi).2
    have h8 : (AsiLoad env.asi).2 = (loadPlugins env.asi.load (discover es)).2 := by
      simp [AsiLoad, h3, h4, h5]
    rw [h8, loadPlugins_cbs]
    exact List.mem_filter.mpr ⟨h6, by rw [h7]; rfl⟩
  · exact invokes_WaitForPlugins wenv _

/-- Witness for C6: concrete degraded environment with two good plugins. -/
theorem claim_c6_witness :
    (DllMainAttach dllEnvNoThread).1 =
      Action.installPatch ::
        ((if dllEnvNoThread.patchOk then [] else [Action.patchFailDialog]) ++
          [Action.pinModule, Action.startThread] ++ (AsiLoad dllEnvNoThread.asi).1 ++
            [Action.freeLibrary])
    ∧ (DllMainAttach dllEnvNoThread).2 = ⟨none, (AsiLoad dllEnvNoThread.asi).2⟩
    ∧ (DllMainAttach dllEnvNoThread).1.filter isDialog =
        (if dllEnvNoThread.patchOk then [] else [Action.patchFailDialog]) ++
          (AsiLoad dllEnvNoThread.asi).1.filter isDialog
    ∧ (∀ es p, dllEnvNoThread.asi.entries = some es →
        dllEnvNoThread.asi.mainModule = true →
        dllEnvNoThread.asi.fileNameLen ≠ 0 → p ∈ discover es →
        dllEnvNoThread.asi.load p = LoadResult.ok true →
        p ∈ (DllMainAttach dllEnvNoThread).2.cbs)
    ∧ invokes (WaitForPlugins wenvOk (DllMainAttach dllEnvNoThread).2).1 =
        (DllMainAttach dllEnvNoThread).2.cbs :=
  claim_c6 dllEnvNoThread wenvOk rfl rfl

/-- Counterexample to C1 as stated: with plugin files `a.asi` and `B.asi`
(all loading fine and exporting `InitAsi`), the trigger invokes the
callbacks in `std::set` code-unit order `B.asi, a.asi`, while the
case-insensitive ascending lexicographic order of those filenames is
`a.asi, B.asi`. -/
theorem claim_c1_counterexample :
    invokes (WaitForPlugins wenvOk ⟨some 0, (AsiLoad envAB).2⟩).1 =
      ["B.asi", "a.asi"]
    ∧ specCiSort ["B.asi", "a.asi"] = ["a.asi", "B.asi"]
    ∧ (["B.asi", "a.asi"] : List String) ≠ ["a.asi", "B.asi"] := by
  refine ⟨rfl, rfl, by decide⟩

/-- Claim C1 amended: the callbacks are invoked in the ascending
lexicographic order of the accepted filenames by raw code-unit value
(case-sensitive `std::wstring` comparison), not case-insensitively: when
every discovered plugin loads with an `InitAsi` export, one trigger
execution invokes exactly `discover es`, which is strictly `slt`-ascending
and holds exactly the accepted filenames. -/
theorem claim_c1_amended (env : AsiEnv) (wenv : WaitEnv) (es : List FileEntry) (h : Nat)
    (h1 : env.mainModule = true) (h2 : env.fileNameLen ≠ 0) (h3 : env.entries = some es)
    (h4 : ∀ p ∈ discover es, env.load p = LoadResult.ok true) :
    invokes (WaitForPlugins wenv ⟨some h, (AsiLoad env).2⟩).1 = discover es
    ∧ (discover es).Pairwise (fun a b => slt a b = true)
    ∧ (∀ n, n ∈ discover es ↔
        ∃ e, e ∈ es ∧ e.isDirectory = false ∧
          pathMatchSpec e.cFileName PLUGINFILTER = true ∧ e.cFileName = n) := by
  refine ⟨?_, pairwise_discover, fun n => mem_discover⟩
  rw [invokes_WaitForPlugins]
  exact AsiLoad_cbs_discover env es h1 h2 h3 h4

/-- Witness for the amended C1 at the two-plugin environment. -/
theorem claim_c1_amended_witness :
    invokes (WaitForPlugins wenvOk
        ⟨some 0, (AsiLoad envAB).2⟩).1 =
      discover [⟨"a.asi", false⟩, ⟨"B.asi", false⟩]
    ∧ (discover [⟨"a.asi", false⟩, ⟨"B.asi", false⟩]).Pairwise
        (fun a b => slt a b = true)
    ∧ (∀ n, n ∈ discover [⟨"a.asi", false⟩, ⟨"B.asi", false⟩] ↔
        ∃ e, e ∈ [(⟨"a.asi", false⟩ : FileEntry), ⟨"B.asi", false⟩] ∧
          e.isDirectory = false ∧
          pathMatchSpec e.cFileName PLUGINFILTER = true ∧ e.cFileName = n) :=
  claim_c1_amended envAB wenvOk [⟨"a.asi", false⟩, ⟨"B.asi", false⟩] 0
    rfl (by decide) rfl (by decide)

end S4AsiLoader
